import Mathlib

/-!
Verification of the Nash Cards Pokemon card valuation tool.

The development shallowly embeds the three JavaScript modules of the
repository: the API module (js/api.js: card search, result caching,
formatting and condition-based price enrichment), the App module
(main application file: the performSearch workflow with its
single-flight guard and mock fallback), and the UI/Auth modules
(js/ui.js: screen transitions guarded by session state, signup and
login over a stored user list).

Modelling conventions:
- JavaScript numbers are modelled as rationals; all prices produced by
  the program are integers or exact multiples of 0.25, so rational
  arithmetic is exact where the source's floating point is.  The
  source formats prices with toFixed(2) for display; the model keeps
  the exact numeric values that toFixed is applied to.
- The JavaScript truthiness fallback (x or-else d) on optional strings
  and numbers is modelled explicitly: undefined, the empty string and
  zero select the fallback.
- charCodeAt is modelled at in-range indices (every modelled call site
  applies it to a nonempty string); characters are ASCII throughout,
  where UTF-16 code units and code points agree.
- Asynchronous control flow is modelled by big-step state passing: the
  outcome of each awaited operation is an explicit parameter, and UI
  side effects are recorded in an event trace.
-/

/-- Model of the JavaScript expression v or-else d on an optional string:
undefined and the empty string are falsy and select the fallback d. -/
def jsOrStr (v : Option String) (d : String) : String :=
  match v with
  | some s => if s = "" then d else s
  | none => d

/-- Model of the JavaScript expression v or-else d on an optional number:
undefined and zero are falsy and select the fallback d. -/
def jsOrQ (v : Option ℚ) (d : ℚ) : ℚ :=
  match v with
  | some q => if q = 0 then d else q
  | none => d

/-- Model of s.charCodeAt(0).  Total with an immaterial default: every
modelled call site applies it to a nonempty string (the literal string
pokemon, or a card name). -/
def charCodeAt0 (s : String) : ℕ :=
  (s.data.headD 'p').toNat

/-- Model of s.charCodeAt(s.length - 1), the code of the last character.
Total with an immaterial default, as for charCodeAt0. -/
def charCodeLast (s : String) : ℕ :=
  (s.data.getLastD 'p').toNat

/-- Contiguous-sublist test on character lists; true when sub occurs as
a contiguous run inside l (the empty list occurs in every list). -/
def includesList (sub l : List Char) : Bool :=
  sub.isPrefixOf l ||
    match l with
    | [] => false
    | _ :: t => includesList sub t

/-- Model of the JavaScript substring test s.includes(sub). -/
def includesStr (s sub : String) : Bool :=
  includesList sub.data s.data

/-- Model of Math.round: round half up. -/
def jsRound (q : ℚ) : ℤ :=
  Rat.floor (q + 1/2)

/-- Model of s.toLowerCase() (ASCII-faithful). -/
def toLowerStr (s : String) : String :=
  ⟨s.data.map Char.toLower⟩

/-- Model of s.toUpperCase() (ASCII-faithful). -/
def toUpperStr (s : String) : String :=
  ⟨s.data.map Char.toUpper⟩

/-- Model of s.trim(): strip leading and trailing whitespace. -/
def trimStr (s : String) : String :=
  ⟨((s.data.dropWhile Char.isWhitespace).reverse.dropWhile Char.isWhitespace).reverse⟩

/-- Model of s.substring(0, n): the first n UTF-16 units (characters are
ASCII at every modelled call site). -/
def takeStr (s : String) (n : ℕ) : String :=
  ⟨s.data.take n⟩

/-- Card Result record produced by the API module (formatCardResults and
getCardPricing in js/api.js, createMockCardResult in the App module).
The field pricesAvg models the nested prices.tcgplayer.avg value; none
models an absent prices chain. -/
structure Card where
  id : String
  name : String
  set : String
  setCode : String
  number : String
  imageUrl : String
  rarity : String
  type : String
  hp : String
  pricesAvg : Option ℚ
deriving DecidableEq

/-- Raw card object from the remote Pokemon TCG catalog, as consumed by
formatCardResults and getCardPricing.  Optional fields model the
optional-chaining accesses in the source (card.set?.name and so on);
setName collapses card.set?.name to one optional string. -/
structure RawCard where
  id : String
  name : String
  setName : Option String
  setId : Option String
  number : Option String
  imagesLarge : Option String
  imagesSmall : Option String
  rarity : Option String
  types : List String
  hp : Option String
deriving DecidableEq

/-- Argument passed to generateMockPrice in js/api.js.  The source
annotates the parameter as a card object, but formatCardResults and
getCardPricing pass the card name string instead; reading the name
property of a string primitive yields undefined in JavaScript, which
the model renders as none. -/
inductive MockPriceArg
  | card (c : Card)
  | str (s : String)
deriving DecidableEq

/-- Result of the JavaScript property access argument.name for the two
kinds of value that reach generateMockPrice in js/api.js. -/
def nameProp : MockPriceArg → Option String
  | .card c => some c.name
  | .str _ => none

/-- Embeds generateMockPrice from js/api.js:
seed = (card.name or-else the string pokemon).charCodeAt(0);
result = 5 + ((seed * 137) mod 496). -/
def API.generateMockPrice (card : MockPriceArg) : ℚ :=
  let seed := charCodeAt0 (jsOrStr (nameProp card) "pokemon")
  ((5 + (seed * 137) % 496 : ℕ) : ℚ)

/-- Embeds the card formatting object literal that appears verbatim in
both formatCardResults and getCardPricing in js/api.js.  Note that both
sites pass the string card.name to generateMockPrice. -/
def API.formatCard (card : RawCard) : Card :=
  { id := card.id
    name := card.name
    set := jsOrStr card.setName "Unknown Set"
    setCode := jsOrStr card.setId "UNKNOWN"
    number := jsOrStr card.number "N/A"
    imageUrl := jsOrStr card.imagesLarge (jsOrStr card.imagesSmall "")
    rarity := jsOrStr card.rarity "Common"
    type := jsOrStr card.types.head? "Unknown"
    hp := jsOrStr card.hp "N/A"
    pricesAvg := some (API.generateMockPrice (.str card.name)) }

/-- Cache entry stored by formatCardResults: formatted data plus the
insertion timestamp (milliseconds). -/
structure CacheEntry where
  data : List Card
  timestamp : ℤ
deriving DecidableEq

/-- The API module cache, a map from composite string keys to entries.
Modelled as an association list where insertion prepends; lookup takes
the most recent binding, matching JavaScript Map semantics. -/
abbrev Cache := List (String × CacheEntry)

/-- Lookup in the cache map (first, that is most recent, binding wins). -/
def cacheLookup (cache : Cache) (key : String) : Option CacheEntry :=
  match cache with
  | [] => none
  | (k, v) :: rest => if k = key then some v else cacheLookup rest key

/-- Removal of a key from the cache map; used to state that an expired
entry is treated as absent. -/
def eraseKey (cache : Cache) (key : String) : Cache :=
  cache.filter (fun p => p.1 != key)

/-- CACHE_DURATION from js/api.js: one hour in milliseconds. -/
def CACHE_DURATION : ℤ := 3600000

/-- Composite cache key built by searchCards in js/api.js. -/
def cacheKeyOf (name set number : String) : String :=
  "search_" ++ name ++ "_" ++ set ++ "_" ++ number

/-- Value returned by searchCards: an object with success true and a
data array, or success false with an error message. -/
inductive LookupResult
  | ok (data : List Card)
  | fail (error : String)
deriving DecidableEq

/-- The success flag of a searchCards return value. -/
def LookupResult.success : LookupResult → Bool
  | .ok _ => true
  | .fail _ => false

/-- Outcome of one fetchFromPokemonTCG call for the cards listing: err
models a failed fetch (caught and reported as success false); ok
carries the body, whose data array may be absent. -/
inductive FetchResult
  | err (msg : String)
  | ok (data : Option (List RawCard))
deriving DecidableEq

/-- A fetch outcome on which searchCards reports failure: the remote
call errored or the data array is absent or empty. -/
def respBad : FetchResult → Bool
  | .err _ => true
  | .ok none => true
  | .ok (some data) => data.isEmpty

/-- Full outcome of one searchCards call: the returned value, the cache
after the call, and whether the remote catalog was contacted. -/
structure SearchOut where
  result : LookupResult
  cache : Cache
  remoteCalled : Bool
deriving DecidableEq

/-- Embeds formatCardResults from js/api.js: formats the cards and
stores the formatted list in the cache under the given key with the
current timestamp.  Returns the result value and the updated cache. -/
def API.formatCardResults (cards : List RawCard) (cacheKey : String)
    (cache : Cache) (now : ℤ) : LookupResult × Cache :=
  let formattedCards := cards.map API.formatCard
  (.ok formattedCards, (cacheKey, ⟨formattedCards, now⟩) :: cache)

/-- The filteredCards list built inside searchCards: the results whose
name contains the query name as a case-insensitive substring, both
sides lower-cased and the query trimmed. -/
def API.filteredCards (name : String) (data : List RawCard) : List RawCard :=
  data.filter (fun card => includesStr (toLowerStr card.name) (trimStr (toLowerStr name)))

/-- Embeds the remote portion of searchCards in js/api.js, entered when
no fresh cache entry exists: on a successful fetch with a nonempty data
array the results are filtered to names containing the query name,
falling back to the unfiltered array when the filter leaves nothing,
and the chosen list is formatted and cached; otherwise the call reports
failure with the message No cards found. -/
def API.searchRemote (name cacheKey : String) (cache : Cache) (now : ℤ)
    (resp : FetchResult) : SearchOut :=
  match resp with
  | .ok (some data) =>
    if data.length > 0 then
      if (API.filteredCards name data).length = 0 then
        let fr := API.formatCardResults data cacheKey cache now
        ⟨fr.1, fr.2, true⟩
      else
        let fr := API.formatCardResults (API.filteredCards name data) cacheKey cache now
        ⟨fr.1, fr.2, true⟩
    else ⟨.fail "No cards found", cache, true⟩
  | _ => ⟨.fail "No cards found", cache, true⟩

/-- Embeds searchCards from js/api.js.  A cache entry younger than
CACHE_DURATION is returned directly without a remote call; a stale or
absent entry falls through to the remote path.  The parameters now and
resp supply the current time and the outcome the remote call would
have. -/
def API.searchCards (name set number : String) (cache : Cache) (now : ℤ)
    (resp : FetchResult) : SearchOut :=
  let cacheKey := cacheKeyOf name set number
  match cacheLookup cache cacheKey with
  | some cached =>
    if now - cached.timestamp < CACHE_DURATION then ⟨.ok cached.data, cache, false⟩
    else API.searchRemote name cacheKey cache now resp
  | none => API.searchRemote name cacheKey cache now resp

/-- The conditionMultipliers object literal in enrichCardWithPricing,
as a finite map. -/
def API.conditionMultipliers (condition : String) : Option ℚ :=
  if condition = "Near Mint" then some 1
  else if condition = "Lightly Played" then some (3/4)
  else if condition = "Moderately Played" then some (1/2)
  else none

/-- Multiplier actually used by enrichCardWithPricing:
conditionMultipliers[condition] or-else 0.5. -/
def API.conditionMultiplier (condition : String) : ℚ :=
  jsOrQ (API.conditionMultipliers condition) (1/2)

/-- The priceBreakdown object built by enrichCardWithPricing.  The
source renders conditionAdjustment as a percent string via Math.round;
the model keeps the rounded number. -/
structure PriceBreakdown where
  basePrice : ℚ
  conditionAdjustment : ℤ
  estimatedValue : ℚ
deriving DecidableEq

/-- Enriched card returned by enrichCardWithPricing: the spread of the
input card plus the pricing fields.  The source formats basePrice and
adjustedPrice with toFixed(2) for display; the model keeps the exact
numeric values. -/
structure EnrichedCard where
  card : Card
  selectedCondition : String
  basePrice : ℚ
  adjustedPrice : ℚ
  conditionMultiplier : ℚ
  priceBreakdown : PriceBreakdown
deriving DecidableEq

/-- Embeds enrichCardWithPricing from js/api.js: pure; looks up the
condition multiplier (0.5 fallback), takes the base price from
prices.tcgplayer.avg falling back to generateMockPrice applied to the
card object, and multiplies. -/
def API.enrichCardWithPricing (card : Card) (condition : String) : EnrichedCard :=
  let multiplier := API.conditionMultiplier condition
  let basePrice := jsOrQ card.pricesAvg (API.generateMockPrice (.card card))
  let adjustedPrice := basePrice * multiplier
  { card := card
    selectedCondition := condition
    basePrice := basePrice
    adjustedPrice := adjustedPrice
    conditionMultiplier := multiplier
    priceBreakdown :=
      { basePrice := basePrice
        conditionAdjustment := jsRound (multiplier * 100)
        estimatedValue := adjustedPrice } }

/-- Outcome of the single-card fetch made by getCardPricing: err models
a failed fetch; ok carries the body, whose data object may be absent. -/
inductive DetailFetch
  | err (msg : String)
  | ok (card : Option RawCard)
deriving DecidableEq

/-- Value returned by getCardPricing: an enriched card on success, or
the untouched fetch outcome passed through otherwise. -/
inductive PricingOut
  | priced (e : EnrichedCard)
  | passthrough (r : DetailFetch)
deriving DecidableEq

/-- Embeds getCardPricing from js/api.js: on a successful fetch with a
present data object, formats the card (the same object literal as
formatCardResults, again passing the name string to generateMockPrice)
and enriches it with the condition; otherwise returns the fetch result
unchanged. -/
def API.getCardPricing (condition : String) (resp : DetailFetch) : PricingOut :=
  match resp with
  | .ok (some card) => .priced (API.enrichCardWithPricing (API.formatCard card) condition)
  | r => .passthrough r

/-- Embeds getSampleCard from js/api.js (45.50 is 91/2). -/
def API.getSampleCard : Card :=
  { id := "sample_001"
    name := "Charizard"
    set := "Base Set"
    setCode := "BS"
    number := "4/102"
    imageUrl := "https://images.pokemontcg.io/base1/4.png"
    rarity := "Holo Rare"
    type := "Fire"
    hp := "120"
    pricesAvg := some (91/2) }

/-- Card Descriptor stored in session storage by the card input form;
all fields are trimmed strings, number possibly empty. -/
structure CardData where
  name : String
  set : String
  number : String
  condition : String
  photo : String
deriving DecidableEq

/-- Embeds generateMockPrice from the main application file (distinct
from the API module function of the same name): seed from the first and
last character codes of the card name, price 15 + ((seed * 257) mod 486). -/
def App.generateMockPrice (cardName : String) : ℚ :=
  let seed := charCodeAt0 cardName + charCodeLast cardName
  ((15 + (seed * 257) % 486 : ℕ) : ℚ)

/-- Embeds generateMockImageUrl from the main application file: a fixed
lookup table from lower-cased names to sample images, defaulting to the
Charizard image. -/
def App.generateMockImageUrl (pokemonName : String) : String :=
  let normalizedName := toLowerStr pokemonName
  if normalizedName = "charizard" then "https://images.pokemontcg.io/base1/4.png"
  else if normalizedName = "blastoise" then "https://images.pokemontcg.io/base1/2.png"
  else if normalizedName = "venusaur" then "https://images.pokemontcg.io/base1/1.png"
  else if normalizedName = "dragonite" then "https://images.pokemontcg.io/base1/5.png"
  else if normalizedName = "machamp" then "https://images.pokemontcg.io/base1/7.png"
  else if normalizedName = "golem" then "https://images.pokemontcg.io/base1/6.png"
  else if normalizedName = "arcanine" then "https://images.pokemontcg.io/base1/23.png"
  else if normalizedName = "lapras" then "https://images.pokemontcg.io/base1/16.png"
  else if normalizedName = "snorlax" then "https://images.pokemontcg.io/base1/27.png"
  else if normalizedName = "alakazam" then "https://images.pokemontcg.io/base1/1/1.png"
  else if normalizedName = "pikachu" then "https://images.pokemontcg.io/base1/25.png"
  else "https://images.pokemontcg.io/base1/4.png"

/-- Embeds createMockCardResult from the main application file; now
supplies Date.now() for the synthetic id. -/
def App.createMockCardResult (cardData : CardData) (now : ℤ) : Card :=
  { id := "mock_" ++ toString now
    name := cardData.name
    set := cardData.set
    setCode := toUpperStr (takeStr cardData.set 2)
    number := jsOrStr (some cardData.number) "1/102"
    imageUrl := App.generateMockImageUrl cardData.name
    rarity := "Holo Rare"
    type := "Varies"
    hp := "120"
    pricesAvg := some (App.generateMockPrice cardData.name) }

/-- Mutable state of the App module: the single-flight guard and the
current card. -/
structure AppState where
  searchInProgress : Bool
  currentCard : Option Card
deriving DecidableEq

/-- Observable steps of one performSearch run, in program order:
UI calls, the guard assignments, and the API.searchCards invocation. -/
inductive Ev
  | showError (msg : String)
  | redirectAuth
  | setGuard
  | disableSearch
  | showLoading
  | lookupCall
  | showResults
  | clearGuard
  | enableSearch
deriving DecidableEq

/-- Resolution of the awaited operations inside the try block of
performSearch: throwBefore models an exception before the searchCards
call (the delay rejecting); search resp throwAfter models the
searchCards call resolving against resp, with throwAfter indicating an
exception in the subsequent result-display step. -/
inductive TryOutcome
  | throwBefore
  | search (resp : FetchResult) (throwAfter : Bool)
deriving DecidableEq

/-- Full outcome of one performSearch run: final App state, cache after
the run, event trace, and the enriched card handed to UI.showResults
when the run completes normally. -/
structure RunOut where
  state : AppState
  cache : Cache
  events : List Ev
  displayed : Option EnrichedCard
deriving DecidableEq

/-- Embeds performSearch from the main application file.  The loggedIn
and cardData parameters are the values read from Auth.isLoggedIn() and
session storage at this invocation.  The guard check comes first; then
the authentication check; then the card data check; only then is the
guard set, and the finally block clears it on every path through the
try block.  In the throwAfter case the current card has already been
assigned when the display step throws. -/
def App.performSearch (st : AppState) (loggedIn : Bool) (cardData : Option CardData)
    (cache : Cache) (now : ℤ) (run : TryOutcome) : RunOut :=
  if st.searchInProgress then ⟨st, cache, [], none⟩
  else if loggedIn = false then
    ⟨st, cache, [.showError "You must be logged in to search for cards", .redirectAuth], none⟩
  else
    match cardData with
    | none => ⟨st, cache, [.showError "Card data not found"], none⟩
    | some cd =>
      match run with
      | .throwBefore =>
        ⟨⟨false, st.currentCard⟩, cache,
          [.setGuard, .disableSearch, .showLoading,
           .showError "Failed to fetch card pricing. Please try again.",
           .clearGuard, .enableSearch], none⟩
      | .search resp throwAfter =>
        let o := API.searchCards cd.name cd.set cd.number cache now resp
        let card :=
          match o.result with
          | .fail _ => App.createMockCardResult cd now
          | .ok data =>
            match data with
            | [] => App.createMockCardResult cd now
            | c :: _ => c
        if throwAfter then
          ⟨⟨false, some card⟩, o.cache,
            [.setGuard, .disableSearch, .showLoading, .lookupCall,
             .showError "Failed to fetch card pricing. Please try again.",
             .clearGuard, .enableSearch], none⟩
        else
          ⟨⟨false, some card⟩, o.cache,
            [.setGuard, .disableSearch, .showLoading, .lookupCall, .showResults,
             .clearGuard, .enableSearch],
            some (API.enrichCardWithPricing card cd.condition)⟩

/-- Credential Record stored under the users key. -/
structure User where
  id : String
  name : String
  email : String
  password : String
deriving DecidableEq

/-- Session Record stored under the session key. -/
structure Session where
  id : String
  name : String
  email : String
  loginTime : String
deriving DecidableEq

/-- Persistent state owned by the Auth module: the stored user list
(getStoredUsers() or-else the empty list) and the active session. -/
structure AuthState where
  users : List User
  session : Option Session
deriving DecidableEq

/-- Result object returned by signup and login (the user payload login
attaches on success is the session record, recorded in the state). -/
structure AuthResult where
  success : Bool
  message : String
deriving DecidableEq

/-- Split of a character list at every occurrence of the at sign; the
result has one part more than the number of at signs, and no part
contains an at sign. -/
def splitAtSign (cs : List Char) : List (List Char) :=
  match cs with
  | [] => [[]]
  | c :: rest =>
    let r := splitAtSign rest
    if c = '@' then [] :: r
    else
      match r with
      | [] => [[c]]
      | h :: t => (c :: h) :: t

/-- Embeds isValidEmail from js/ui.js, the test of the regular
expression anchored as: one or more characters that are neither
whitespace nor the at sign, an at sign, one or more such characters, a
dot, one or more such characters.  A string matches exactly when it
contains a single at sign (two split parts), a nonempty whitespace-free
local part, and a whitespace-free domain part with a dot that is
neither its first nor its last character. -/
def Auth.isValidEmail (email : String) : Bool :=
  match splitAtSign email.data with
  | [localPart, domainPart] =>
    !localPart.isEmpty &&
    localPart.all (fun c => !c.isWhitespace) &&
    domainPart.all (fun c => !c.isWhitespace) &&
    (domainPart.drop 1).dropLast.contains '.'
  | _ => false

/-- Embeds login from js/ui.js; loginTime supplies the ISO timestamp of
new Date(). -/
def Auth.login (st : AuthState) (email password loginTime : String) :
    AuthResult × AuthState :=
  if email = "" ∨ password = "" then
    (⟨false, "Email and password are required"⟩, st)
  else
    match st.users.find? (fun u => u.email == email) with
    | none => (⟨false, "User not found"⟩, st)
    | some user =>
      if user.password ≠ password then (⟨false, "Invalid password"⟩, st)
      else
        (⟨true, "Login successful"⟩,
          { st with session := some ⟨user.id, user.name, user.email, loginTime⟩ })

/-- Embeds signup from js/ui.js; newId supplies Date.now().toString()
and loginTime the timestamp of the automatic login performed after the
new record is appended. -/
def Auth.signup (st : AuthState) (name email password newId loginTime : String) :
    AuthResult × AuthState :=
  if name = "" ∨ email = "" ∨ password = "" then
    (⟨false, "All fields are required"⟩, st)
  else if Auth.isValidEmail email = false then
    (⟨false, "Invalid email address"⟩, st)
  else if password.length < 6 then
    (⟨false, "Password must be at least 6 characters"⟩, st)
  else if st.users.any (fun u => u.email == email) then
    (⟨false, "Email already registered"⟩, st)
  else
    let newUser : User := ⟨newId, name, email, password⟩
    let st1 : AuthState := { st with users := st.users ++ [newUser] }
    (⟨true, "Account created successfully"⟩, (Auth.login st1 email password loginTime).2)

/-- The six named screens of the UI module. -/
inductive ScreenName
  | auth
  | cardInput
  | confirmation
  | loading
  | results
  | error
deriving DecidableEq

/-- Membership in the protectedScreens list of showScreen. -/
def UI.isProtected : ScreenName → Bool
  | .cardInput => true
  | .confirmation => true
  | .loading => true
  | .results => true
  | .auth => false
  | .error => false

/-- Observable UI state: the screen carrying the active class (also
mirrored to the currentScreen storage key) and the text of the error
message element. -/
structure UIState where
  current : ScreenName
  errorMessage : String
deriving DecidableEq

/-- The unguarded tail of showScreen: activate the named screen. -/
def UI.showScreenBody (st : UIState) (screenName : ScreenName) : UIState :=
  { st with current := screenName }

/-- Embeds showError from js/ui.js: set the message text and show the
error screen (the error screen is unprotected, so the guard in the
showScreen call it makes never fires). -/
def UI.showError (st : UIState) (message : String) : UIState :=
  UI.showScreenBody { st with errorMessage := message } .error

/-- Embeds showScreen from js/ui.js.  The loggedIn parameter is the
value of Auth.isLoggedIn() read at this invocation, so session validity
is re-checked on every transition.  Entering a protected screen without
a session shows the log-in-first error and then redirects to the auth
screen. -/
def UI.showScreen (loggedIn : Bool) (st : UIState) (screenName : ScreenName) : UIState :=
  if UI.isProtected screenName && !loggedIn then
    UI.showScreenBody (UI.showError st "Please log in first to continue") .auth
  else
    UI.showScreenBody st screenName

/-- Sample raw catalog card used to instantiate witnesses. -/
def sampleRaw : RawCard :=
  { id := "base1-25"
    name := "Pikachu"
    setName := some "Base"
    setId := some "base1"
    number := some "25"
    imagesLarge := some "https://images.pokemontcg.io/base1/25_hires.png"
    imagesSmall := some "https://images.pokemontcg.io/base1/25.png"
    rarity := some "Common"
    types := ["Lightning"]
    hp := some "40" }

/-- The default seeded account created by Auth.init. -/
def demoUser : User :=
  { id := "1", name := "Demo User", email := "demo@example.com", password := "password123" }

/-- Auth state holding exactly the default seeded account and no session. -/
def demoState : AuthState :=
  { users := [demoUser], session := none }


/-- Helper: the JavaScript or-else on a present nonzero number keeps it. -/
theorem jsOrQ_some_ne (q d : ℚ) (h : q ≠ 0) : jsOrQ (some q) d = q := by
  simp [jsOrQ, h]

/-- Helper: multiplier for Near Mint. -/
theorem conditionMultiplier_nearMint : API.conditionMultiplier "Near Mint" = 1 := by
  unfold API.conditionMultiplier API.conditionMultipliers
  split
  · norm_num [jsOrQ]
  · next h => exact absurd rfl h

/-- Helper: multiplier for Lightly Played. -/
theorem conditionMultiplier_lightlyPlayed :
    API.conditionMultiplier "Lightly Played" = 3/4 := by
  unfold API.conditionMultiplier API.conditionMultipliers
  split
  · next h => exact absurd h (by decide)
  · split
    · norm_num [jsOrQ]
    · next h => exact absurd rfl h

/-- Helper: multiplier for Moderately Played. -/
theorem conditionMultiplier_moderatelyPlayed :
    API.conditionMultiplier "Moderately Played" = 1/2 := by
  unfold API.conditionMultiplier API.conditionMultipliers
  split
  · next h => exact absurd h (by decide)
  · split
    · next h => exact absurd h (by decide)
    · split
      · norm_num [jsOrQ]
      · next h => exact absurd rfl h

/-- Helper: multiplier for any unrecognized condition string. -/
theorem conditionMultiplier_other (condition : String)
    (h1 : condition ≠ "Near Mint") (h2 : condition ≠ "Lightly Played")
    (h3 : condition ≠ "Moderately Played") :
    API.conditionMultiplier condition = 1/2 := by
  simp [API.conditionMultiplier, API.conditionMultipliers, jsOrQ, h1, h2, h3]

/-- Helper: the API module generateMockPrice applied to any string
value is the constant 469, since strings have no name property. -/
theorem apiMockPrice_str (s : String) : API.generateMockPrice (.str s) = 469 := by
  have hc : charCodeAt0 "pokemon" = 112 := by decide
  simp [API.generateMockPrice, nameProp, jsOrStr, hc]

/-- Helper: every formatted card carries the constant base price 469. -/
theorem formatCard_pricesAvg (c : RawCard) : (API.formatCard c).pricesAvg = some 469 := by
  simp [API.formatCard, apiMockPrice_str]

/-- Claim C1: for every card and every condition string,
enrichCardWithPricing returns an augmented copy whose adjustedPrice
equals basePrice multiplied by the condition multiplier, where the
multiplier is 1.0 for Near Mint, 0.75 (3/4) for Lightly Played, 0.50
(1/2) for Moderately Played, and 0.50 for any other condition string. -/
theorem enrichCardWithPricing_adjustedPrice_spec (card : Card) (condition : String) :
    (API.enrichCardWithPricing card condition).adjustedPrice
      = (API.enrichCardWithPricing card condition).basePrice
        * API.conditionMultiplier condition
    ∧ (API.enrichCardWithPricing card condition).card = card
    ∧ (API.enrichCardWithPricing card condition).selectedCondition = condition
    ∧ API.conditionMultiplier "Near Mint" = 1
    ∧ API.conditionMultiplier "Lightly Played" = 3/4
    ∧ API.conditionMultiplier "Moderately Played" = 1/2
    ∧ (condition ≠ "Near Mint" → condition ≠ "Lightly Played" →
        condition ≠ "Moderately Played" → API.conditionMultiplier condition = 1/2) :=
  ⟨rfl, rfl, rfl, conditionMultiplier_nearMint, conditionMultiplier_lightlyPlayed,
   conditionMultiplier_moderatelyPlayed, conditionMultiplier_other condition⟩

/-- Witness for claim C1 at the sample card and an unrecognized
condition string. -/
theorem enrichCardWithPricing_adjustedPrice_spec_witness :
    ("Damaged" : String) ≠ "Near Mint"
    ∧ (API.enrichCardWithPricing API.getSampleCard "Damaged").adjustedPrice
        = (API.enrichCardWithPricing API.getSampleCard "Damaged").basePrice
          * API.conditionMultiplier "Damaged"
    ∧ API.conditionMultiplier "Damaged" = 1/2 :=
  ⟨by decide,
   (enrichCardWithPricing_adjustedPrice_spec API.getSampleCard "Damaged").1,
   (enrichCardWithPricing_adjustedPrice_spec API.getSampleCard "Damaged").2.2.2.2.2.2
     (by decide) (by decide) (by decide)⟩

/-- Claim C10: the formatting paths of the API module pass the card
name string, not a card object, to generateMockPrice, whose name
property lookup on a string yields undefined; the seed therefore
always falls back to the string pokemon and every formatted card gets
the constant base price 469, which getCardPricing then uses as the
base price of its enrichment. -/
theorem generateMockPrice_constant_on_string :
    (∀ s : String, API.generateMockPrice (.str s) = 469)
    ∧ (∀ c : RawCard, (API.formatCard c).pricesAvg = some 469)
    ∧ (∀ (c : RawCard) (condition : String),
        API.getCardPricing condition (.ok (some c))
          = .priced (API.enrichCardWithPricing (API.formatCard c) condition)
        ∧ (API.enrichCardWithPricing (API.formatCard c) condition).basePrice = 469) := by
  refine ⟨apiMockPrice_str, formatCard_pricesAvg, fun c condition => ⟨rfl, ?_⟩⟩
  simp only [API.enrichCardWithPricing]
  rw [formatCard_pricesAvg, jsOrQ_some_ne _ _ (by norm_num)]

/-- Witness for claim C10 at a concrete name and raw card. -/
theorem generateMockPrice_constant_on_string_witness :
    API.generateMockPrice (.str "Charizard") = 469
    ∧ (API.formatCard sampleRaw).pricesAvg = some 469
    ∧ (API.enrichCardWithPricing (API.formatCard sampleRaw) "Near Mint").basePrice = 469 :=
  ⟨generateMockPrice_constant_on_string.1 "Charizard",
   generateMockPrice_constant_on_string.2.1 sampleRaw,
   (generateMockPrice_constant_on_string.2.2 sampleRaw "Near Mint").2⟩

/-- Claim C9: every showScreen call re-reads the session state; a call
targeting a protected screen without an active session ends on the
auth screen with the log-in-first message set, a call without an
active session never ends on a protected screen, and a call that is
logged in or targets an unprotected screen activates its target. -/
theorem showScreen_protected_guard (st : UIState) (screenName : ScreenName)
    (loggedIn : Bool) :
    (UI.isProtected screenName = true → loggedIn = false →
      UI.showScreen loggedIn st screenName
        = ⟨.auth, "Please log in first to continue"⟩)
    ∧ UI.isProtected (UI.showScreen false st screenName).current = false
    ∧ (loggedIn = true ∨ UI.isProtected screenName = false →
        (UI.showScreen loggedIn st screenName).current = screenName) := by
  cases screenName <;> cases loggedIn <;>
    simp [UI.showScreen, UI.showScreenBody, UI.showError, UI.isProtected]

/-- Witness for claim C9: entering the card input screen with no
session redirects to auth with the log-in-first message. -/
theorem showScreen_protected_guard_witness :
    UI.isProtected .cardInput = true
    ∧ UI.showScreen false ⟨.auth, ""⟩ .cardInput
        = ⟨.auth, "Please log in first to continue"⟩ :=
  ⟨by decide, (showScreen_protected_guard ⟨.auth, ""⟩ .cardInput false).1 (by decide) rfl⟩

/-- Counterexample to claim C4 as stated: with the default seeded
store, signup with the already-registered email and a three-character
password fails with the password validation message, not the
duplicate-email message, because the duplicate check runs only after
field validation. -/
theorem signup_duplicate_email_counterexample :
    demoState.users.any (fun u => u.email == "demo@example.com") = true
    ∧ (Auth.signup demoState "Alice" "demo@example.com" "abc" "2" "t").1.success = false
    ∧ (Auth.signup demoState "Alice" "demo@example.com" "abc" "2" "t").1.message
        = "Password must be at least 6 characters"
    ∧ "Password must be at least 6 characters" ≠ "Email already registered" := by
  refine ⟨by decide, ?_, ?_, by decide⟩ <;>
    · have hout : Auth.signup demoState "Alice" "demo@example.com" "abc" "2" "t"
          = (⟨false, "Password must be at least 6 characters"⟩, demoState) := by
        unfold Auth.signup
        rw [if_neg (by decide), if_neg (by decide), if_pos (by decide)]
      rw [hout]

/-- Claim C4 (amended): signup with a password shorter than 6
characters always fails with one of the three validation messages and
leaves the state (stored users and session) unchanged; signup with an
email already present always fails and leaves the state unchanged, and
the reported failure is the duplicate-email message exactly when the
inputs pass field validation (nonempty name, well-formed email,
password of length at least 6). -/
theorem signup_validation_and_duplicate (st : AuthState)
    (name email password newId loginTime : String) :
    (password.length < 6 →
      (Auth.signup st name email password newId loginTime).1.success = false
      ∧ (Auth.signup st name email password newId loginTime).2 = st
      ∧ (Auth.signup st name email password newId loginTime).1.message
          ∈ (["All fields are required", "Invalid email address",
              "Password must be at least 6 characters"] : List String))
    ∧ (st.users.any (fun u => u.email == email) = true →
      (Auth.signup st name email password newId loginTime).1.success = false
      ∧ (Auth.signup st name email password newId loginTime).2 = st)
    ∧ (st.users.any (fun u => u.email == email) = true → name ≠ "" →
        Auth.isValidEmail email = true → 6 ≤ password.length →
      (Auth.signup st name email password newId loginTime).1.message
        = "Email already registered") := by
  by_cases h1 : name = "" ∨ email = "" ∨ password = ""
  · have hout : Auth.signup st name email password newId loginTime
        = (⟨false, "All fields are required"⟩, st) := by
      unfold Auth.signup
      rw [if_pos h1]
    refine ⟨fun _ => ⟨by rw [hout], by rw [hout],
        by rw [hout]; exact List.mem_cons_self _ _⟩,
      fun _ => ⟨by rw [hout], by rw [hout]⟩, ?_⟩
    intro _ hname hvalid hlen
    rcases h1 with h | h | h
    · exact absurd h hname
    · rw [h] at hvalid
      exact absurd hvalid (by decide)
    · rw [h] at hlen
      exact absurd hlen (by decide)
  · by_cases h2 : Auth.isValidEmail email = false
    · have hout : Auth.signup st name email password newId loginTime
          = (⟨false, "Invalid email address"⟩, st) := by
        unfold Auth.signup
        rw [if_neg h1, if_pos h2]
      refine ⟨fun _ => ⟨by rw [hout], by rw [hout],
          by rw [hout]; exact List.mem_cons_of_mem _ (List.mem_cons_self _ _)⟩,
        fun _ => ⟨by rw [hout], by rw [hout]⟩, ?_⟩
      intro _ _ hvalid _
      rw [hvalid] at h2
      exact absurd h2 (by decide)
    · by_cases h3 : password.length < 6
      · have hout : Auth.signup st name email password newId loginTime
            = (⟨false, "Password must be at least 6 characters"⟩, st) := by
          unfold Auth.signup
          rw [if_neg h1, if_neg h2, if_pos h3]
        refine ⟨fun _ => ⟨by rw [hout], by rw [hout],
            by rw [hout];
               exact List.mem_cons_of_mem _ (List.mem_cons_of_mem _ (List.mem_cons_self _ _))⟩,
          fun _ => ⟨by rw [hout], by rw [hout]⟩, ?_⟩
        intro _ _ _ hlen
        omega
      · by_cases h4 : st.users.any (fun u => u.email == email) = true
        · have hout : Auth.signup st name email password newId loginTime
              = (⟨false, "Email already registered"⟩, st) := by
            unfold Auth.signup
            rw [if_neg h1, if_neg h2, if_neg h3, if_pos h4]
          exact ⟨fun hl => absurd hl h3,
            fun _ => ⟨by rw [hout], by rw [hout]⟩,
            fun _ _ _ _ => by rw [hout]⟩
        · exact ⟨fun hl => absurd hl h3, fun hd => absurd hd h4,
            fun hd _ _ _ => absurd hd h4⟩

/-- Witness for claim C4 (amended): a short password is rejected with
the state unchanged, and a duplicate email with otherwise valid inputs
is rejected with the duplicate-email message. -/
theorem signup_validation_and_duplicate_witness :
    (("ab" : String).length < 6
      ∧ (Auth.signup demoState "Alice" "new@example.com" "ab" "2" "t").1.success = false
      ∧ (Auth.signup demoState "Alice" "new@example.com" "ab" "2" "t").2 = demoState)
    ∧ (demoState.users.any (fun u => u.email == "demo@example.com") = true
      ∧ (Auth.signup demoState "Bob" "demo@example.com" "hunter22" "3" "t").1.message
          = "Email already registered") :=
  ⟨⟨by decide,
    ((signup_validation_and_duplicate demoState "Alice" "new@example.com" "ab" "2" "t").1
      (by decide)).1,
    ((signup_validation_and_duplicate demoState "Alice" "new@example.com" "ab" "2" "t").1
      (by decide)).2.1⟩,
   ⟨by decide,
    (signup_validation_and_duplicate demoState "Bob" "demo@example.com" "hunter22" "3" "t").2.2
      (by decide) (by decide) (by decide) (by decide)⟩⟩

/-- Helper: unfolding of login past the emptiness check when a user is
found for the email. -/
theorem login_found (st : AuthState) (email password loginTime : String) (user : User)
    (hc : ¬(email = "" ∨ password = ""))
    (hf : st.users.find? (fun u => u.email == email) = some user) :
    Auth.login st email password loginTime
      = if user.password ≠ password then (⟨false, "Invalid password"⟩, st)
        else (⟨true, "Login successful"⟩,
          { st with session := some ⟨user.id, user.name, user.email, loginTime⟩ }) := by
  unfold Auth.login
  rw [if_neg hc, hf]

/-- Claim C5: login fails leaving the state unchanged when email or
password is empty; otherwise it fails with User not found when no
stored user matches the email, fails with Invalid password when the
matched user's password differs, and succeeds on a match, storing
exactly one session record built from the matched user, replacing any
prior session and leaving the users unchanged. -/
theorem login_case_analysis (st : AuthState) (email password loginTime : String) :
    ((email = "" ∨ password = "") →
      (Auth.login st email password loginTime).1.success = false
      ∧ (Auth.login st email password loginTime).2 = st)
    ∧ (email ≠ "" → password ≠ "" →
        st.users.find? (fun u => u.email == email) = none →
      (Auth.login st email password loginTime).1 = ⟨false, "User not found"⟩
      ∧ (Auth.login st email password loginTime).2 = st)
    ∧ (∀ user : User, email ≠ "" → password ≠ "" →
        st.users.find? (fun u => u.email == email) = some user →
        user.password ≠ password →
      (Auth.login st email password loginTime).1 = ⟨false, "Invalid password"⟩
      ∧ (Auth.login st email password loginTime).2 = st)
    ∧ (∀ user : User, email ≠ "" → password ≠ "" →
        st.users.find? (fun u => u.email == email) = some user →
        user.password = password →
      (Auth.login st email password loginTime).1 = ⟨true, "Login successful"⟩
      ∧ (Auth.login st email password loginTime).2.users = st.users
      ∧ (Auth.login st email password loginTime).2.session
          = some ⟨user.id, user.name, user.email, loginTime⟩) := by
  by_cases hc : email = "" ∨ password = ""
  · have hout : Auth.login st email password loginTime
        = (⟨false, "Email and password are required"⟩, st) := by
      unfold Auth.login
      rw [if_pos hc]
    refine ⟨fun _ => ⟨by rw [hout], by rw [hout]⟩, ?_, ?_, ?_⟩
    · intro he hp _
      rcases hc with h | h
      · exact absurd h he
      · exact absurd h hp
    · intro user he hp _ _
      rcases hc with h | h
      · exact absurd h he
      · exact absurd h hp
    · intro user he hp _ _
      rcases hc with h | h
      · exact absurd h he
      · exact absurd h hp
  · cases hf : st.users.find? (fun u => u.email == email) with
    | none =>
      have hout : Auth.login st email password loginTime
          = (⟨false, "User not found"⟩, st) := by
        simp only [Auth.login, if_neg hc, hf]
      refine ⟨fun h => absurd h hc, fun _ _ _ => ⟨by rw [hout], by rw [hout]⟩, ?_, ?_⟩
      · intro user _ _ hsome _
        exact Option.noConfusion hsome
      · intro user _ _ hsome _
        exact Option.noConfusion hsome
    | some user0 =>
      by_cases hpw : user0.password = password
      · have hout : Auth.login st email password loginTime
            = (⟨true, "Login successful"⟩,
               { st with session := some ⟨user0.id, user0.name, user0.email, loginTime⟩ }) := by
          rw [login_found st email password loginTime user0 hc hf,
            if_neg (not_not_intro hpw)]
        refine ⟨fun h => absurd h hc, fun _ _ hnone => Option.noConfusion hnone, ?_, ?_⟩
        · intro user _ _ hsome hne
          cases Option.some.inj hsome
          exact absurd hpw hne
        · intro user _ _ hsome _
          cases Option.some.inj hsome
          exact ⟨by rw [hout], by rw [hout], by rw [hout]⟩
      · have hout : Auth.login st email password loginTime
            = (⟨false, "Invalid password"⟩, st) := by
          rw [login_found st email password loginTime user0 hc hf, if_pos hpw]
        refine ⟨fun h => absurd h hc, fun _ _ hnone => Option.noConfusion hnone, ?_, ?_⟩
        · intro user _ _ hsome _
          cases Option.some.inj hsome
          exact ⟨by rw [hout], by rw [hout]⟩
        · intro user _ _ hsome hpeq
          cases Option.some.inj hsome
          exact absurd hpeq hpw

/-- Witness for claim C5: the default seeded account logs in
successfully, storing the corresponding session record. -/
theorem login_case_analysis_witness :
    demoState.users.find? (fun u => u.email == "demo@example.com") = some demoUser
    ∧ (Auth.login demoState "demo@example.com" "password123" "now").1
        = ⟨true, "Login successful"⟩
    ∧ (Auth.login demoState "demo@example.com" "password123" "now").2.session
        = some ⟨"1", "Demo User", "demo@example.com", "now"⟩ := by
  have h := (login_case_analysis demoState "demo@example.com" "password123" "now").2.2.2
    demoUser (by decide) (by decide) (by decide) (by decide)
  exact ⟨by decide, h.1, h.2.2⟩

/-- Helper: cache lookup finds the entry just prepended. -/
theorem cacheLookup_cons_self (key : String) (e : CacheEntry) (cache : Cache) :
    cacheLookup ((key, e) :: cache) key = some e := by
  simp [cacheLookup]

/-- Helper: after erasing a key, lookup of that key misses. -/
theorem cacheLookup_eraseKey (cache : Cache) (key : String) :
    cacheLookup (eraseKey cache key) key = none := by
  induction cache with
  | nil => rfl
  | cons p rest ih =>
    obtain ⟨k, v⟩ := p
    by_cases h : k = key
    · simpa [eraseKey, List.filter_cons, h] using ih
    · simpa [eraseKey, List.filter_cons, h, cacheLookup] using ih

/-- Helper: searchCards on a cache miss runs the remote path. -/
theorem searchCards_lookup_none (name set number : String) (cache : Cache) (now : ℤ)
    (resp : FetchResult)
    (hl : cacheLookup cache (cacheKeyOf name set number) = none) :
    API.searchCards name set number cache now resp
      = API.searchRemote name (cacheKeyOf name set number) cache now resp := by
  simp only [API.searchCards]
  rw [hl]

/-- Helper: searchCards on a cache hit reduces to the freshness test. -/
theorem searchCards_entry (name set number : String) (cache : Cache) (now : ℤ)
    (resp : FetchResult) (e : CacheEntry)
    (hl : cacheLookup cache (cacheKeyOf name set number) = some e) :
    API.searchCards name set number cache now resp
      = if now - e.timestamp < CACHE_DURATION then ⟨.ok e.data, cache, false⟩
        else API.searchRemote name (cacheKeyOf name set number) cache now resp := by
  simp only [API.searchCards]
  rw [hl]

/-- Helper: a fresh cache entry is returned without a remote call. -/
theorem searchCards_fresh (name set number : String) (cache : Cache) (now : ℤ)
    (resp : FetchResult) (e : CacheEntry)
    (hl : cacheLookup cache (cacheKeyOf name set number) = some e)
    (hfresh : now - e.timestamp < CACHE_DURATION) :
    API.searchCards name set number cache now resp = ⟨.ok e.data, cache, false⟩ := by
  rw [searchCards_entry name set number cache now resp e hl, if_pos hfresh]

/-- Helper: when every entry for the key is stale or absent, searchCards
runs the remote path. -/
theorem searchCards_not_fresh (name set number : String) (cache : Cache) (now : ℤ)
    (resp : FetchResult)
    (h : ∀ e, cacheLookup cache (cacheKeyOf name set number) = some e →
      ¬(now - e.timestamp < CACHE_DURATION)) :
    API.searchCards name set number cache now resp
      = API.searchRemote name (cacheKeyOf name set number) cache now resp := by
  cases hl : cacheLookup cache (cacheKeyOf name set number) with
  | none => exact searchCards_lookup_none name set number cache now resp hl
  | some e =>
    rw [searchCards_entry name set number cache now resp e hl, if_neg (h e hl)]

/-- Helper: on a bad fetch outcome the remote path reports failure. -/
theorem searchRemote_bad (name cacheKey : String) (cache : Cache) (now : ℤ)
    (resp : FetchResult) (h : respBad resp = true) :
    API.searchRemote name cacheKey cache now resp
      = ⟨.fail "No cards found", cache, true⟩ := by
  cases resp with
  | err m => rfl
  | ok d =>
    cases d with
    | none => rfl
    | some data =>
      have hdata : data = [] := by simpa [respBad, List.isEmpty_iff] using h
      subst hdata
      rfl

/-- Helper: nonempty data whose filter comes up empty is formatted and
cached unfiltered. -/
theorem searchRemote_filtered_empty (name cacheKey : String) (cache : Cache) (now : ℤ)
    (data : List RawCard) (hd : data.length > 0)
    (hf : (API.filteredCards name data).length = 0) :
    API.searchRemote name cacheKey cache now (.ok (some data))
      = ⟨.ok (data.map API.formatCard),
         (cacheKey, ⟨data.map API.formatCard, now⟩) :: cache, true⟩ := by
  simp only [API.searchRemote]
  rw [if_pos hd, if_pos hf]
  rfl

/-- Helper: a nonempty filter result is formatted and cached. -/
theorem searchRemote_filtered_nonempty (name cacheKey : String) (cache : Cache) (now : ℤ)
    (data : List RawCard) (hd : data.length > 0)
    (hf : ¬(API.filteredCards name data).length = 0) :
    API.searchRemote name cacheKey cache now (.ok (some data))
      = ⟨.ok ((API.filteredCards name data).map API.formatCard),
         (cacheKey, ⟨(API.filteredCards name data).map API.formatCard, now⟩) :: cache,
         true⟩ := by
  simp only [API.searchRemote]
  rw [if_pos hd, if_neg hf]
  rfl

/-- Helper: on a good fetch outcome the remote path returns some
formatted list and caches exactly that list under the key with the
current timestamp. -/
theorem searchRemote_good (name cacheKey : String) (cache : Cache) (now : ℤ)
    (resp : FetchResult) (h : respBad resp = false) :
    ∃ fmt, API.searchRemote name cacheKey cache now resp
      = ⟨.ok fmt, (cacheKey, ⟨fmt, now⟩) :: cache, true⟩ := by
  cases resp with
  | err m => simp [respBad] at h
  | ok d =>
    cases d with
    | none => simp [respBad] at h
    | some data =>
      have hne : data ≠ [] := by simpa [respBad, List.isEmpty_iff] using h
      have hd : data.length > 0 := List.length_pos.mpr hne
      by_cases hf : (API.filteredCards name data).length = 0
      · exact ⟨_, searchRemote_filtered_empty name cacheKey cache now data hd hf⟩
      · exact ⟨_, searchRemote_filtered_nonempty name cacheKey cache now data hd hf⟩

/-- Helper: the remote path always contacts the catalog, fails exactly
on a bad fetch outcome, and then fails with the fixed message. -/
theorem searchRemote_spec (name cacheKey : String) (cache : Cache) (now : ℤ)
    (resp : FetchResult) :
    (API.searchRemote name cacheKey cache now resp).remoteCalled = true
    ∧ ((API.searchRemote name cacheKey cache now resp).result.success = false
        ↔ respBad resp = true)
    ∧ (respBad resp = true →
        API.searchRemote name cacheKey cache now resp
          = ⟨.fail "No cards found", cache, true⟩) := by
  by_cases hb : respBad resp = true
  · rw [searchRemote_bad name cacheKey cache now resp hb]
    exact ⟨rfl, by simp [LookupResult.success, hb], fun _ => rfl⟩
  · obtain ⟨fmt, hgood⟩ :=
      searchRemote_good name cacheKey cache now resp (Bool.not_eq_true _ ▸ hb)
    rw [hgood]
    exact ⟨rfl, by simp [LookupResult.success, hb], fun h => absurd h hb⟩

/-- Helper: the result of the remote path does not depend on the
starting cache. -/
theorem searchRemote_result_congr (name cacheKey : String) (c c2 : Cache) (now : ℤ)
    (resp : FetchResult) :
    (API.searchRemote name cacheKey c now resp).result
      = (API.searchRemote name cacheKey c2 now resp).result := by
  by_cases hb : respBad resp = true
  · rw [searchRemote_bad name cacheKey c now resp hb,
      searchRemote_bad name cacheKey c2 now resp hb]
  · have hb2 : respBad resp = false := Bool.not_eq_true _ ▸ hb
    cases resp with
    | err m => simp [respBad] at hb2
    | ok d =>
      cases d with
      | none => simp [respBad] at hb2
      | some data =>
        have hne : data ≠ [] := by simpa [respBad, List.isEmpty_iff] using hb2
        have hd : data.length > 0 := List.length_pos.mpr hne
        by_cases hf : (API.filteredCards name data).length = 0
        · rw [searchRemote_filtered_empty name cacheKey c now data hd hf,
            searchRemote_filtered_empty name cacheKey c2 now data hd hf]
        · rw [searchRemote_filtered_nonempty name cacheKey c now data hd hf,
            searchRemote_filtered_nonempty name cacheKey c2 now data hd hf]

/-- Claim C7: searchCards reports success false exactly when the remote
catalog was contacted and the fetch outcome was an error or an absent
or empty data array; failure is a returned value carrying the fixed
message No cards found, never a thrown fault (the embedding is total:
every path returns a LookupResult). -/
theorem searchCards_failure_iff (name set number : String) (cache : Cache) (now : ℤ)
    (resp : FetchResult) :
    ((API.searchCards name set number cache now resp).result.success = false
      ↔ (API.searchCards name set number cache now resp).remoteCalled = true
        ∧ respBad resp = true)
    ∧ ((API.searchCards name set number cache now resp).result.success = false →
      (API.searchCards name set number cache now resp).result
        = .fail "No cards found") := by
  by_cases hfresh : ∃ e, cacheLookup cache (cacheKeyOf name set number) = some e
      ∧ now - e.timestamp < CACHE_DURATION
  · obtain ⟨e, hl, hfr⟩ := hfresh
    rw [searchCards_fresh name set number cache now resp e hl hfr]
    exact ⟨by simp [LookupResult.success], by simp [LookupResult.success]⟩
  · have hnf : ∀ e, cacheLookup cache (cacheKeyOf name set number) = some e →
        ¬(now - e.timestamp < CACHE_DURATION) :=
      fun e hl hfr => hfresh ⟨e, hl, hfr⟩
    rw [searchCards_not_fresh name set number cache now resp hnf]
    obtain ⟨hrc, hiff, hbadeq⟩ :=
      searchRemote_spec name (cacheKeyOf name set number) cache now resp
    refine ⟨?_, ?_⟩
    · simp [hrc, hiff]
    · intro hfail
      rw [hbadeq (hiff.mp hfail)]

/-- Witness for claim C7 at a failing fetch against an empty cache. -/
theorem searchCards_failure_iff_witness :
    ((API.searchCards "Mew" "" "" [] 7 (.err "boom")).result.success = false
      ↔ (API.searchCards "Mew" "" "" [] 7 (.err "boom")).remoteCalled = true
        ∧ respBad (.err "boom") = true)
    ∧ (API.searchCards "Mew" "" "" [] 7 (.err "boom")).result = .fail "No cards found" :=
  have h := searchCards_failure_iff "Mew" "" "" [] 7 (.err "boom")
  ⟨h.1, h.2 rfl⟩

/-- Claim C6: against a nonempty remote result set (reached when no
fresh cache entry exists), searchCards returns exactly the formatted
cards whose name contains the query name as a case-insensitive
substring (both sides lower-cased, the query trimmed), and when that
filter keeps nothing it returns the whole formatted result set instead
of failing. -/
theorem searchCards_filter_fallback (name set number : String) (cache : Cache)
    (now : ℤ) (data : List RawCard)
    (hnf : ∀ e, cacheLookup cache (cacheKeyOf name set number) = some e →
      ¬(now - e.timestamp < CACHE_DURATION))
    (hne : data ≠ []) :
    API.filteredCards name data
        = data.filter (fun card =>
            includesStr (toLowerStr card.name) (trimStr (toLowerStr name)))
    ∧ (API.filteredCards name data ≠ [] →
      (API.searchCards name set number cache now (.ok (some data))).result
        = .ok ((API.filteredCards name data).map API.formatCard))
    ∧ (API.filteredCards name data = [] →
      (API.searchCards name set number cache now (.ok (some data))).result
        = .ok (data.map API.formatCard))
    ∧ (API.searchCards name set number cache now (.ok (some data))).result.success
        = true := by
  have hd : data.length > 0 := List.length_pos.mpr hne
  rw [searchCards_not_fresh name set number cache now _ hnf]
  by_cases hf : (API.filteredCards name data).length = 0
  · have hfe : API.filteredCards name data = [] := List.length_eq_zero.mp hf
    rw [searchRemote_filtered_empty name _ cache now data hd hf]
    exact ⟨rfl, fun h => absurd hfe h, fun _ => rfl, rfl⟩
  · have hfne : API.filteredCards name data ≠ [] := fun h => hf (by simp [h])
    rw [searchRemote_filtered_nonempty name _ cache now data hd hf]
    exact ⟨rfl, fun _ => rfl, fun h => absurd h hfne, rfl⟩

/-- Witness for claim C6 at a one-card result set whose name matches. -/
theorem searchCards_filter_fallback_witness :
    (API.searchCards "Pikachu" "" "" [] 5 (.ok (some [sampleRaw]))).result
      = .ok ((API.filteredCards "Pikachu" [sampleRaw]).map API.formatCard)
    ∧ API.filteredCards "Pikachu" [sampleRaw] ≠ [] :=
  have h := searchCards_filter_fallback "Pikachu" "" "" [] 5 [sampleRaw]
    (fun _ he => by simp [cacheLookup] at he) (by decide)
  ⟨h.2.1 (by decide), by decide⟩

/-- Claim C2: when no fresh entry exists for the key, a successful
first call contacts the catalog and caches its result at its call
time, and a second identical call within the one-hour window returns
the identical result without contacting the catalog; two calls under a
pre-existing entry that is fresh at both times both return the cached
data without any remote call; and a call finding only a stale entry
contacts the catalog and behaves exactly as if the entry were absent. -/
theorem searchCards_cache_spec (name set number : String) (cache : Cache)
    (t1 t2 : ℤ) (resp1 resp2 : FetchResult) :
    ((∀ e, cacheLookup cache (cacheKeyOf name set number) = some e →
        ¬(t1 - e.timestamp < CACHE_DURATION)) →
      (API.searchCards name set number cache t1 resp1).result.success = true →
      t2 - t1 < CACHE_DURATION →
      (API.searchCards name set number
          (API.searchCards name set number cache t1 resp1).cache t2 resp2).result
        = (API.searchCards name set number cache t1 resp1).result
      ∧ (API.searchCards name set number
          (API.searchCards name set number cache t1 resp1).cache t2 resp2).remoteCalled
          = false
      ∧ (API.searchCards name set number cache t1 resp1).remoteCalled = true)
    ∧ (∀ e, cacheLookup cache (cacheKeyOf name set number) = some e →
        t1 - e.timestamp < CACHE_DURATION → t2 - e.timestamp < CACHE_DURATION →
      API.searchCards name set number cache t1 resp1 = ⟨.ok e.data, cache, false⟩
      ∧ API.searchCards name set number cache t2 resp2 = ⟨.ok e.data, cache, false⟩)
    ∧ (∀ e, cacheLookup cache (cacheKeyOf name set number) = some e →
        ¬(t2 - e.timestamp < CACHE_DURATION) →
      (API.searchCards name set number cache t2 resp2).remoteCalled = true
      ∧ (API.searchCards name set number cache t2 resp2).result
          = (API.searchCards name set number
              (eraseKey cache (cacheKeyOf name set number)) t2 resp2).result) := by
  refine ⟨?_, ?_, ?_⟩
  · intro hnf hsucc hwin
    rw [searchCards_not_fresh name set number cache t1 resp1 hnf] at hsucc ⊢
    have hspec := searchRemote_spec name (cacheKeyOf name set number) cache t1 resp1
    have hbad : respBad resp1 = false := by
      cases hb : respBad resp1
      · rfl
      · have := hspec.2.1.mpr hb
        rw [hsucc] at this
        exact Bool.noConfusion this
    obtain ⟨fmt, hgood⟩ :=
      searchRemote_good name (cacheKeyOf name set number) cache t1 resp1 hbad
    rw [hgood]
    have hl2 : cacheLookup ((cacheKeyOf name set number, ⟨fmt, t1⟩) :: cache)
        (cacheKeyOf name set number) = some ⟨fmt, t1⟩ := cacheLookup_cons_self _ _ _
    rw [searchCards_fresh name set number _ t2 resp2 _ hl2 hwin]
    exact ⟨rfl, rfl, rfl⟩
  · intro e hl hf1 hf2
    exact ⟨searchCards_fresh name set number cache t1 resp1 e hl hf1,
      searchCards_fresh name set number cache t2 resp2 e hl hf2⟩
  · intro e hl hstale
    have hnf : ∀ e2, cacheLookup cache (cacheKeyOf name set number) = some e2 →
        ¬(t2 - e2.timestamp < CACHE_DURATION) := by
      intro e2 hl2 hfr
      cases Option.some.inj (hl.symm.trans hl2)
      exact hstale hfr
    rw [searchCards_not_fresh name set number cache t2 resp2 hnf,
      searchCards_lookup_none name set number
        (eraseKey cache (cacheKeyOf name set number)) t2 resp2
        (cacheLookup_eraseKey cache (cacheKeyOf name set number))]
    exact ⟨(searchRemote_spec name (cacheKeyOf name set number) cache t2 resp2).1,
      searchRemote_result_congr name (cacheKeyOf name set number) cache
        (eraseKey cache (cacheKeyOf name set number)) t2 resp2⟩

/-- Witness for claim C2: a successful call on the empty cache followed
one millisecond later by an identical call served from the cache, the
second issuing no remote call even against a failing fetch outcome. -/
theorem searchCards_cache_spec_witness :
    (API.searchCards "Pikachu" "" ""
        (API.searchCards "Pikachu" "" "" [] 0 (.ok (some [sampleRaw]))).cache
        1 (.err "down")).result
      = (API.searchCards "Pikachu" "" "" [] 0 (.ok (some [sampleRaw]))).result
    ∧ (API.searchCards "Pikachu" "" ""
        (API.searchCards "Pikachu" "" "" [] 0 (.ok (some [sampleRaw]))).cache
        1 (.err "down")).remoteCalled = false
    ∧ (API.searchCards "Pikachu" "" "" [] 0 (.ok (some [sampleRaw]))).remoteCalled
        = true :=
  (searchCards_cache_spec "Pikachu" "" "" [] 0 1 (.ok (some [sampleRaw])) (.err "down")).1
    (fun _ h => by simp [cacheLookup] at h) rfl (by decide)

/-- Claim C3: performSearch is single-flight.  When the guard is
already set the call is a complete no-op: state, cache, trace and
display are untouched.  Otherwise the final state always has the guard
cleared, on every outcome of the try block including a thrown step or
a failed lookup, and whenever the lookup is invoked the guard-setting
step strictly precedes it in the trace. -/
theorem performSearch_single_flight (st : AppState) (loggedIn : Bool)
    (cardData : Option CardData) (cache : Cache) (now : ℤ) (run : TryOutcome) :
    (st.searchInProgress = true →
      App.performSearch st loggedIn cardData cache now run = ⟨st, cache, [], none⟩)
    ∧ (st.searchInProgress = false →
      (App.performSearch st loggedIn cardData cache now run).state.searchInProgress
        = false)
    ∧ (Ev.lookupCall ∈ (App.performSearch st loggedIn cardData cache now run).events →
      (App.performSearch st loggedIn cardData cache now run).events.indexOf Ev.setGuard
        < (App.performSearch st loggedIn cardData cache now run).events.indexOf
            Ev.lookupCall) := by
  refine ⟨fun h1 => by simp [App.performSearch, h1], fun h2 => ?_, fun hmem => ?_⟩
  · cases loggedIn with
    | false => simp [App.performSearch, h2]
    | true =>
      cases cardData with
      | none => simp [App.performSearch, h2]
      | some cd =>
        cases run with
        | throwBefore => simp [App.performSearch, h2]
        | search resp throwAfter =>
          cases throwAfter with
          | true => simp [App.performSearch, h2]
          | false => simp [App.performSearch, h2]
  · cases hg : st.searchInProgress with
    | true => simp [App.performSearch, hg] at hmem
    | false =>
      cases loggedIn with
      | false => simp [App.performSearch, hg] at hmem
      | true =>
        cases cardData with
        | none => simp [App.performSearch, hg] at hmem
        | some cd =>
          cases run with
          | throwBefore => simp [App.performSearch, hg] at hmem
          | search resp throwAfter =>
            cases throwAfter with
            | true =>
              have hev : (App.performSearch st true (some cd) cache now
                  (.search resp true)).events
                  = [.setGuard, .disableSearch, .showLoading, .lookupCall,
                     .showError "Failed to fetch card pricing. Please try again.",
                     .clearGuard, .enableSearch] := by
                simp [App.performSearch, hg]
              rw [hev]
              decide
            | false =>
              have hev : (App.performSearch st true (some cd) cache now
                  (.search resp false)).events
                  = [.setGuard, .disableSearch, .showLoading, .lookupCall,
                     .showResults, .clearGuard, .enableSearch] := by
                simp [App.performSearch, hg]
              rw [hev]
              decide

/-- Witness for claim C3: a run with the guard set is a no-op, and a
run with the guard clear ends with the guard clear. -/
theorem performSearch_single_flight_witness :
    (⟨true, none⟩ : AppState).searchInProgress = true
    ∧ App.performSearch ⟨true, none⟩ true none [] 0 .throwBefore
        = ⟨⟨true, none⟩, [], [], none⟩
    ∧ (App.performSearch ⟨false, none⟩ true none [] 0 .throwBefore).state.searchInProgress
        = false :=
  ⟨rfl, (performSearch_single_flight ⟨true, none⟩ true none [] 0 .throwBefore).1 rfl,
   (performSearch_single_flight ⟨false, none⟩ true none [] 0 .throwBefore).2.1 rfl⟩

/-- Claim C8: with a failing or empty remote lookup, the Charizard,
Base Set, Near Mint search falls back to the synthetic mock card; the
displayed enrichment has base price seeded from the first and last
character codes of Charizard (value 166), and with the Near Mint
multiplier 1 the adjusted price equals the base price. -/
theorem charizard_fallback_scenario (now : ℤ) (resp : FetchResult)
    (hbad : respBad resp = true) :
    (App.performSearch ⟨false, none⟩ true
        (some ⟨"Charizard", "Base Set", "", "Near Mint", ""⟩) [] now
        (.search resp false)).displayed
      = some (API.enrichCardWithPricing
          (App.createMockCardResult ⟨"Charizard", "Base Set", "", "Near Mint", ""⟩ now)
          "Near Mint")
    ∧ (API.enrichCardWithPricing
        (App.createMockCardResult ⟨"Charizard", "Base Set", "", "Near Mint", ""⟩ now)
        "Near Mint").basePrice = App.generateMockPrice "Charizard"
    ∧ App.generateMockPrice "Charizard"
        = ((15 + ((charCodeAt0 "Charizard" + charCodeLast "Charizard") * 257) % 486 : ℕ) : ℚ)
    ∧ App.generateMockPrice "Charizard" = 166
    ∧ (API.enrichCardWithPricing
        (App.createMockCardResult ⟨"Charizard", "Base Set", "", "Near Mint", ""⟩ now)
        "Near Mint").adjustedPrice
      = (API.enrichCardWithPricing
          (App.createMockCardResult ⟨"Charizard", "Base Set", "", "Near Mint", ""⟩ now)
          "Near Mint").basePrice
    ∧ API.conditionMultiplier "Near Mint" = 1 := by
  have hval : App.generateMockPrice "Charizard" = 166 := by
    have h1 : charCodeAt0 "Charizard" = 67 := by decide
    have h2 : charCodeLast "Charizard" = 100 := by decide
    simp [App.generateMockPrice, h1, h2]
  have ho : API.searchCards "Charizard" "Base Set" "" [] now resp
      = ⟨.fail "No cards found", [], true⟩ := by
    rw [searchCards_lookup_none "Charizard" "Base Set" "" [] now resp rfl]
    exact searchRemote_bad "Charizard" (cacheKeyOf "Charizard" "Base Set" "") [] now resp hbad
  refine ⟨?_, ?_, rfl, hval, ?_, conditionMultiplier_nearMint⟩
  · simp [App.performSearch, ho]
  · simp only [API.enrichCardWithPricing, App.createMockCardResult]
    rw [hval, jsOrQ_some_ne _ _ (by norm_num)]
  · simp only [API.enrichCardWithPricing]
    rw [conditionMultiplier_nearMint, mul_one]

/-- Witness for claim C8 at a concrete failing fetch and time zero. -/
theorem charizard_fallback_scenario_witness :
    respBad (.err "API Error") = true
    ∧ (App.performSearch ⟨false, none⟩ true
        (some ⟨"Charizard", "Base Set", "", "Near Mint", ""⟩) [] 0
        (.search (.err "API Error") false)).displayed
      = some (API.enrichCardWithPricing
          (App.createMockCardResult ⟨"Charizard", "Base Set", "", "Near Mint", ""⟩ 0)
          "Near Mint")
    ∧ App.generateMockPrice "Charizard" = 166 :=
  ⟨rfl, (charizard_fallback_scenario 0 (.err "API Error") rfl).1,
   (charizard_fallback_scenario 0 (.err "API Error") rfl).2.2.2.1⟩
